import Mathlib

/-!
Verification of the PNCP procurement synchronization pipeline
(`src/integrations/pncp_client.py`, `src/integrations/pncp_sync.py`,
`src/utils/elasticsearch_service.py`, `src/routes/search.py`).

The Python code is shallowly embedded: JSON values become the inductive
`JVal`, raw API records become association lists, the relational store and
the search index become in-memory lists threaded through the functions,
Python exceptions become `Except` results, and wall-clock times become
natural numbers.  External library calls (ISO date parsing, float parsing,
the HTTP transport, the search-engine client) are abstracted as oracle
parameters, so every theorem quantifies over their behaviour.
-/

/-- A JSON value as manipulated by the pipeline.  Only the shapes the code
actually touches are represented: strings, numbers, nested objects and
null. -/
inductive JVal where
  | str (s : String)
  | num (n : Int)
  | obj (fields : List (String × JVal))
  | null

/-- A raw record returned by the remote source: an untyped JSON object,
modelled as an association list (first binding wins, as in a Python dict
lookup). -/
def RawRecord := List (String × JVal)

/-- Dictionary lookup, `d.get(k)` returning `None` when absent. -/
def rget (d : RawRecord) (k : String) : Option JVal :=
  (List.find? (fun kv => kv.1 == k) d).map (fun kv => kv.2)

/-- Dictionary lookup with default, Python `d.get(k, default)`. -/
def rgetD (d : RawRecord) (k : String) (default : JVal) : JVal :=
  (rget d k).getD default

/-- Python truthiness for the JSON values we model: `None`, `""`, `0` and
`{}` are falsy. -/
def truthy : JVal → Bool
  | .str s => !(s == "")
  | .num n => !(n == 0)
  | .obj fs => !fs.isEmpty
  | .null => false

/-- Python `str()` applied to a JSON value (used for identifier
derivation). -/
def pyStr : JVal → String
  | .str s => s
  | .num n => toString n
  | .obj _ => "dict"
  | .null => "None"

/-- Python runtime errors the embedded code can raise.  `attributeError`
models calling `.replace` or `.get` on a value that is not a
string/dict. -/
inductive PyErr where
  | attributeError
deriving DecidableEq

/-- Python `v.get(k, default)` on a value expected to be a dict: raises
`AttributeError` when `v` is not a dict (as in
`licitacao_data.get('modalidade', {}).get('nome', ...)` when the
`modalidade` value is not an object). -/
def pyObjGetD (v : JVal) (k : String) (default : JVal) : Except PyErr JVal :=
  match v with
  | .obj fs => .ok (((List.find? (fun kv => kv.1 == k) fs).map (fun kv => kv.2)).getD default)
  | _ => .error .attributeError

/-- Python `s.replace('Z', '+00:00')` on a string. -/
def replaceZ (s : String) : String :=
  String.join (s.toList.map (fun c => if c = 'Z' then "+00:00" else String.singleton c))

/-- One candidate date field applied to the running value, mirroring

```
try:
    x = datetime.fromisoformat(v.replace('Z', '+00:00'))
except (ValueError, TypeError):
    logger.warning(...)
```

`parse` abstracts `datetime.fromisoformat` (`none` = `ValueError`, which is
caught, leaving the running value `init`).  A non-string `v` raises
`AttributeError` at `v.replace`, which the `except` clause does NOT catch. -/
def applyDateField (parse : String → Option Nat) (v : JVal) (init : Option Nat) :
    Except PyErr (Option Nat) :=
  match v with
  | .str s =>
    match parse (replaceZ s) with
    | some t => .ok (some t)
    | none => .ok init
  | _ => .error .attributeError

/-- The publication-date derivation of `_create_licitacao` (with
`init = none`) and `_update_licitacao` (with `init` the stored value): an
`if 'dataPublicacaoPncp' in d: ... elif 'dataPublicacao' in d: ...
elif 'dataInclusao' in d: ...` chain, each branch guarded by key presence
and applying `applyDateField`. -/
def derivePubDate (parse : String → Option Nat) (d : RawRecord) (init : Option Nat) :
    Except PyErr (Option Nat) :=
  match rget d "dataPublicacaoPncp" with
  | some v => applyDateField parse v init
  | none =>
    match rget d "dataPublicacao" with
    | some v => applyDateField parse v init
    | none =>
      match rget d "dataInclusao" with
      | some v => applyDateField parse v init
      | none => .ok init

/-- Single-key date derivation, used for `dataAbertura` in both the create
and the update path. -/
def deriveSingleDate (parse : String → Option Nat) (d : RawRecord) (key : String)
    (init : Option Nat) : Except PyErr (Option Nat) :=
  match rget d key with
  | some v => applyDateField parse v init
  | none => .ok init

/-- The persisted `Licitacao` entity (`src/models/licitacao.py`), restricted
to the fields the synchronization pipeline reads or writes.  Values coming
straight from the raw JSON keep type `JVal`; parsed dates are `Option Nat`
timestamps. -/
structure Licitacao where
  id : Nat
  id_externo : String
  fonte : String
  sequencial : JVal
  ano : JVal
  objeto : JVal
  descricao : JVal
  valor_estimado : JVal
  modalidade : JVal
  situacao : JVal
  data_publicacao : Option Nat
  data_abertura : Option Nat
  orgao_nome : JVal
  orgao_id : JVal
  municipio : JVal
  uf : JVal
  dados_completos : RawRecord
  data_criacao : Nat
  data_atualizacao : Nat
  indexado : Bool
  data_indexacao : Option Nat

/-- The search-index document produced from an entity (`to_dict()` plus the
`dados_completos` payload re-parsed), restricted to the modelled fields. -/
structure IndexDoc where
  id : Nat
  id_externo : String
  fonte : String
  valor_estimado : JVal
  data_publicacao : Option Nat
  data_abertura : Option Nat
  dados_completos : RawRecord

/-- Projection of an entity to its index document (`licitacao.to_dict()`
plus the raw payload). -/
def toDict (e : Licitacao) : IndexDoc :=
  { id := e.id, id_externo := e.id_externo, fonte := e.fonte,
    valor_estimado := e.valor_estimado, data_publicacao := e.data_publicacao,
    data_abertura := e.data_abertura, dados_completos := e.dados_completos }

/-- The search index: documents keyed by the entity primary key. -/
def Es := List (Nat × IndexDoc)

/-- Document lookup in the index. -/
def esGet (es : Es) (k : Nat) : Option IndexDoc :=
  (List.find? (fun kv => kv.1 == k) es).map (fun kv => kv.2)

/-- Index-with-id: replaces the document stored under `k`, or appends it. -/
def esUpsert (es : Es) (k : Nat) (doc : IndexDoc) : Es :=
  match es with
  | [] => [(k, doc)]
  | kv :: rest =>
    if kv.1 == k then (k, doc) :: rest else kv :: esUpsert rest k doc

/-- `ElasticsearchService.index_document`: upserts the document and reports
success as a boolean (never an exception).  `esOk` abstracts whether the
search-engine client call succeeds. -/
def index_document (esOk : Bool) (es : Es) (docId : Nat) (doc : IndexDoc) : Es × Bool :=
  if esOk then (esUpsert es docId doc, true) else (es, false)

/-- `PNCPSyncService._index_licitacao`: builds the document, upserts it and,
only on success, sets `indexado = True` and `data_indexacao = now` and
persists that change.  All failures are swallowed (the Python function
catches every exception), so this is a total function. -/
def indexLicitacao (esOk : Bool) (now : Nat) (e : Licitacao) (es : Es) : Licitacao × Es :=
  let doc := toDict e
  let r := index_document esOk es e.id doc
  if r.2 then
    ({ e with indexado := true, data_indexacao := some now }, r.1)
  else
    (e, r.1)

/-- The mutable world the reconciler acts on: the relational store (the
`licitacoes` table, primary keys assigned by position of insertion) and the
search index. -/
structure World where
  db : List Licitacao
  es : Es

/-- Row lookup `Licitacao.query.filter_by(id_externo=lid).first()`. -/
def dbFind (db : List Licitacao) (lid : String) : Option Licitacao :=
  List.find? (fun e => e.id_externo == lid) db

/-- Replace the row with the same primary key (an ORM update commit). -/
def dbReplace (db : List Licitacao) (e' : Licitacao) : List Licitacao :=
  db.map (fun x => if x.id == e'.id then e' else x)

/-- `PNCPSyncService._create_licitacao`: extracts and normalizes the fields
of the raw record, builds the new entity, commits it, then invokes the
indexer.  Any extraction error (all occur before the commit) rolls back and
re-raises, leaving both stores untouched — hence the `Except` result
carries the new entity and index only on success. -/
def createLicitacao (parse : String → Option Nat) (esOk : Bool) (now : Nat)
    (newId : Nat) (lid : String) (d : RawRecord) (es : Es) :
    Except PyErr (Licitacao × Es) := do
  let objeto := rgetD d "objeto" (JVal.str "")
  let descricao := rgetD d "descricao" (JVal.str "")
  let dataPub ← derivePubDate parse d none
  let dataAbe ← deriveSingleDate parse d "dataAbertura" none
  let modalidade ← pyObjGetD (rgetD d "modalidade" (JVal.obj [])) "nome"
      (JVal.str "Não especificada")
  let municipioNome ← pyObjGetD (rgetD d "municipio" (JVal.obj [])) "nome" JVal.null
  let ufv ← pyObjGetD (rgetD d "municipio" (JVal.obj [])) "uf" JVal.null
  let e : Licitacao :=
    { id := newId, id_externo := lid, fonte := "PNCP",
      sequencial := rgetD d "sequencial" JVal.null,
      ano := rgetD d "ano" JVal.null,
      objeto := objeto, descricao := descricao,
      valor_estimado := rgetD d "valorTotal" JVal.null,
      modalidade := modalidade,
      situacao := rgetD d "situacao" JVal.null,
      data_publicacao := dataPub, data_abertura := dataAbe,
      orgao_nome := rgetD d "razaoSocialContratante" JVal.null,
      orgao_id := rgetD d "cnpjContratante" JVal.null,
      municipio := municipioNome, uf := ufv,
      dados_completos := d,
      data_criacao := now, data_atualizacao := now,
      indexado := false, data_indexacao := none }
  .ok (indexLicitacao esOk now e es)

/-- `PNCPSyncService._update_licitacao`: overwrites the descriptive fields
(falling back to the stored value when the key is absent), re-derives the
dates starting from the stored values, refreshes the payload and
`data_atualizacao`, commits, then invokes the indexer.  Extraction errors
roll back and re-raise with both stores untouched. -/
def updateLicitacao (parse : String → Option Nat) (esOk : Bool) (now : Nat)
    (e : Licitacao) (d : RawRecord) (es : Es) : Except PyErr (Licitacao × Es) := do
  let objeto := rgetD d "objeto" e.objeto
  let descricao := rgetD d "descricao" e.descricao
  let valor := rgetD d "valorTotal" e.valor_estimado
  let situacao := rgetD d "situacao" e.situacao
  let dataPub ← derivePubDate parse d e.data_publicacao
  let dataAbe ← deriveSingleDate parse d "dataAbertura" e.data_abertura
  let e' : Licitacao :=
    { e with objeto := objeto, descricao := descricao, valor_estimado := valor,
             situacao := situacao, data_publicacao := dataPub,
             data_abertura := dataAbe, dados_completos := d,
             data_atualizacao := now }
  .ok (indexLicitacao esOk now e' es)

/-- The per-record body of the page loop in `sync_licitacoes`: derive the
external identifier (`numeroControlePNCP`, else a truthy `id`, else skip via
`continue`), look the entity up, create or update it, and count it only
when reconciliation succeeded.  The surrounding `except` catches any
per-record error, leaving the world unchanged and the record uncounted. -/
def processRecord (parse : String → Option Nat) (esOk : Bool) (now : Nat)
    (w : World) (d : RawRecord) : World × Bool :=
  let nc := rgetD d "numeroControlePNCP" JVal.null
  let idv := rgetD d "id" JVal.null
  let lidOpt : Option String :=
    if truthy nc then some (pyStr nc)
    else if truthy idv then some (pyStr idv)
    else none
  match lidOpt with
  | none => (w, false)
  | some lid =>
    match dbFind w.db lid with
    | some existing =>
      match updateLicitacao parse esOk now existing d w.es with
      | .ok ees => ({ db := dbReplace w.db ees.1, es := ees.2 }, true)
      | .error _ => (w, false)
    | none =>
      match createLicitacao parse esOk now (w.db.length + 1) lid d w.es with
      | .ok ees => ({ db := w.db ++ [ees.1], es := ees.2 }, true)
      | .error _ => (w, false)

/-- One step of the per-page record fold: thread the world and increment the
page success counter exactly when the record was counted. -/
def processStep (parse : String → Option Nat) (esOk : Bool) (now : Nat)
    (s : World × Nat) (d : RawRecord) : World × Nat :=
  let pr := processRecord parse esOk now s.1 d
  (pr.1, if pr.2 then s.2 + 1 else s.2)

/-- The `for licitacao_data in licitacoes` loop of `sync_licitacoes` over
one page: reconcile each record independently, accumulating the page
success count. -/
def processRecords (parse : String → Option Nat) (esOk : Bool) (now : Nat)
    (w : World) (recs : List RawRecord) : World × Nat :=
  recs.foldl (processStep parse esOk now) (w, 0)

/-- A transport-level request failure: the source was unreachable or
answered non-2xx (`requests.exceptions.RequestException`, including the
`raise_for_status` path). -/
inductive ReqErr where
  | transport
  | httpStatus (code : Nat)
deriving DecidableEq

/-- The fatal error `_make_request` raises after exhausting its retries
(`raise Exception(f"Falha ao acessar API do PNCP: ...")`). -/
inductive Fatal where
  | apiFailure (e : ReqErr)
deriving DecidableEq

/-- The typed JSON envelope of a source response: the two alternate record
keys and the reported page total, each possibly absent. -/
structure Response where
  content : Option (List RawRecord) := none
  data : Option (List RawRecord) := none
  totalPaginas : Option Nat := none

/-- Outcome of `PNCPClient._make_request`: either the raised fatal error, or
the returned value — `some` response, or `none` for the fall-through return
when the retry loop body never runs (`max_retries = 0`).  `sleeps` records
the backoff delays slept between attempts, in order. -/
structure ReqOut where
  result : Except Fatal (Option Response)
  sleeps : List Nat

/-- The retry loop of `_make_request`, from attempt number `attempt`:

```
for attempt in range(self.max_retries):
    try: ... return response.json()
    except requests.exceptions.RequestException as e:
        if attempt < self.max_retries - 1:
            time.sleep(self.retry_delay * (2 ** attempt))
        else:
            raise Exception(...)
```

`attempts` abstracts one transport attempt (the oracle for the network). -/
def makeRequestGo (maxRetries retryDelay : Nat) (attempts : Nat → Except ReqErr Response)
    (attempt : Nat) : ReqOut :=
  if _h : attempt < maxRetries then
    match attempts attempt with
    | .ok r => ⟨.ok (some r), []⟩
    | .error e =>
      if attempt < maxRetries - 1 then
        let rest := makeRequestGo maxRetries retryDelay attempts (attempt + 1)
        ⟨rest.result, retryDelay * 2 ^ attempt :: rest.sleeps⟩
      else ⟨.error (.apiFailure e), []⟩
  else ⟨.ok none, []⟩
termination_by maxRetries - attempt
decreasing_by omega

/-- `PNCPClient._make_request` (the loop started at attempt 0). -/
def make_request (maxRetries retryDelay : Nat)
    (attempts : Nat → Except ReqErr Response) : ReqOut :=
  makeRequestGo maxRetries retryDelay attempts 0

/-- `PNCPClient.fetch_licitacoes` applied to the outcome of its
`_make_request` call: on any exception it logs and returns `[]`; on success
it takes the records under `content`, else under `data`, else `[]`. -/
def fetch_licitacoes (req : Except Fatal Response) : List RawRecord :=
  match req with
  | .error _ => []
  | .ok result =>
    match result.content with
    | some l => l
    | none =>
      match result.data with
      | some l => l
      | none => []

/-- Instrumented outcome of the page loop of `sync_licitacoes`: final
world, accumulated success count, the pages for which a fetch was issued
(in order), and the fatal fetch error if one escaped the loop. -/
structure LoopOut where
  w : World
  count : Nat
  trace : List Nat
  fatal : Option Fatal

/-- The page loop of `sync_licitacoes` once `total_paginas` has been
captured (every iteration after the first).  Mirrors

```
while True:
    result = self.client._make_request(...)      # may raise
    licitacoes = result.get('data', [])
    if not licitacoes: break
    ... process records ...
    if pagina_atual >= total_paginas: break
    pagina_atual += 1
```

`fetch` abstracts one `_make_request` call for a given page number. -/
def syncLoopFrom (parse : String → Option Nat) (esOk : Bool) (now : Nat)
    (fetch : Nat → Except Fatal Response) (total : Nat) (pagina : Nat)
    (w : World) (count : Nat) (trace : List Nat) : LoopOut :=
  let trace' := trace ++ [pagina]
  match fetch pagina with
  | .error e => ⟨w, count, trace', some e⟩
  | .ok res =>
    let lics := res.data.getD []
    if lics.isEmpty then ⟨w, count, trace', none⟩
    else
      let pc := processRecords parse esOk now w lics
      if _h : pagina < total then
        syncLoopFrom parse esOk now fetch total (pagina + 1) pc.1 (count + pc.2) trace'
      else ⟨pc.1, count + pc.2, trace', none⟩
termination_by total + 1 - pagina
decreasing_by omega

/-- The first iteration of the page loop (`pagina_atual = 1`,
`total_paginas is None`): fetches page 1, captures
`total_paginas = result.get('totalPaginas', 1)`, and either stops or
continues with `syncLoopFrom` and the captured total fixed for the rest of
the run. -/
def syncRun (parse : String → Option Nat) (esOk : Bool) (now : Nat)
    (fetch : Nat → Except Fatal Response) (w : World) : LoopOut :=
  match fetch 1 with
  | .error e => ⟨w, 0, [1], some e⟩
  | .ok res =>
    let total := res.totalPaginas.getD 1
    let lics := res.data.getD []
    if lics.isEmpty then ⟨w, 0, [1], none⟩
    else
      let pc := processRecords parse esOk now w lics
      if 1 < total then
        syncLoopFrom parse esOk now fetch total 2 pc.1 pc.2 [1]
      else ⟨pc.1, pc.2, [1], none⟩

/-- The visible outcome of one `sync_licitacoes` run: the stores, the
checkpoint file content, the returned count and the pages fetched. -/
structure SyncResult where
  w : World
  cp : Option Nat
  count : Nat
  trace : List Nat

/-- `PNCPSyncService.sync_licitacoes`: runs the page loop, then — only when
no exception escaped the loop — writes the checkpoint via
`update_last_sync_timestamp()` (setting it to `now`) and returns the total
count.  The enclosing `except Exception` catches a fatal fetch error, logs
it and returns `0`, leaving the checkpoint file untouched (per-record
commits made before the failure persist). -/
def sync_licitacoes (parse : String → Option Nat) (esOk : Bool) (now : Nat)
    (fetch : Nat → Except Fatal Response) (w : World) (cp : Option Nat) : SyncResult :=
  let out := syncRun parse esOk now fetch w
  match out.fatal with
  | some _ => ⟨out.w, cp, 0, out.trace⟩
  | none => ⟨out.w, some now, out.count, out.trace⟩

/-- The default window start of a run (`get_last_sync_timestamp` plus the
defaulting in `sync_licitacoes`): the checkpoint date when the file exists,
else thirty days before today. -/
def computeDataInicial (cp : Option Nat) (hoje : Nat) : Nat :=
  match cp with
  | some t => t
  | none => hoje - 30

/-- A clause of the built search query (`ElasticsearchService.search_text`):
the fuzzy conjunctive multi-match over the weighted text fields, exact-match
terms, and one-sided ranges. -/
inductive Clause where
  | multiMatch (query : String) (fields : List String) (op : String) (fuzziness : String)
  | term (field : String) (value : JVal)
  | rangeGte (field : String) (value : JVal)
  | rangeLte (field : String) (value : JVal)

/-- The `bool` part of the built query: `must` always carries the text
match; `filter` is attached only when filter clauses were produced. -/
structure BoolQuery where
  must : List Clause
  filter : Option (List Clause)

/-- The full request `search_text` builds: the bool query plus the
deterministic sort (score descending, then opening date ascending). -/
structure EsQuery where
  query : BoolQuery
  sort : List (String × String)

/-- The `filters` dict assembled by the `/api/search/licitacoes` route:
each key present only when the corresponding query parameter was supplied
(and, for the value bounds, parsed as a float). -/
structure FiltersDict where
  modalidade : Option String := none
  uf : Option String := none
  valor_min : Option Int := none
  valor_max : Option Int := none
  data_abertura_min : Option String := none
  data_abertura_max : Option String := none

/-- Python `if filters:`: the dict is truthy when any key is present. -/
def filtersNonempty (f : FiltersDict) : Bool :=
  f.modalidade.isSome || f.uf.isSome || f.valor_min.isSome || f.valor_max.isSome ||
    f.data_abertura_min.isSome || f.data_abertura_max.isSome

/-- One `if key in filters: filter_clauses.append(...)` block. -/
def optClause {α : Type} (o : Option α) (g : α → Clause) : List Clause :=
  match o with
  | some x => [g x]
  | none => []

/-- The filter-clause list `search_text` accumulates, in source order. -/
def filterClauses (f : FiltersDict) : List Clause :=
  optClause f.modalidade (fun m => .term "modalidade.keyword" (.str m)) ++
  optClause f.uf (fun u => .term "uf" (.str u)) ++
  optClause f.valor_min (fun v => .rangeGte "valor_estimado" (.num v)) ++
  optClause f.valor_max (fun v => .rangeLte "valor_estimado" (.num v)) ++
  optClause f.data_abertura_min (fun s => .rangeGte "data_abertura" (.str s)) ++
  optClause f.data_abertura_max (fun s => .rangeLte "data_abertura" (.str s))

/-- The default weighted text fields of `search_text`. -/
def defaultSearchFields : List String :=
  ["objeto^3", "descricao^2", "orgao_nome", "municipio"]

/-- `ElasticsearchService.search_text`: builds the bool query with the
conjunctive fuzzy multi-match in `must`, attaches the filter clauses (AND
semantics of an Elasticsearch bool query) only when the filters dict is
truthy and produced clauses, and fixes the sort order. -/
def search_text (text : String) (fields : Option (List String)) (f : FiltersDict) : EsQuery :=
  let flds := fields.getD defaultSearchFields
  let base : EsQuery :=
    { query := { must := [.multiMatch text flds "and" "AUTO"], filter := none },
      sort := [("_score", "desc"), ("data_abertura", "asc")] }
  if filtersNonempty f then
    let fcs := filterClauses f
    if fcs.isEmpty then base
    else { query := { must := base.query.must, filter := some fcs }, sort := base.sort }
  else base

/-- First value of a request query parameter (`request.args.get(k)`). -/
def argsGet (args : List (String × String)) (k : String) : Option String :=
  (List.find? (fun kv => kv.1 == k) args).map (fun kv => kv.2)

/-- The filter-building section of the `search_licitacoes` route: string
parameters are passed through whenever supplied; the two value bounds are
kept only when `float()` succeeds (`pf` abstracts Python float parsing —
`none` is the `ValueError` that the route turns into `pass`). -/
def buildFilters (pf : String → Option Int) (args : List (String × String)) : FiltersDict :=
  { modalidade := argsGet args "modalidade",
    uf := argsGet args "uf",
    valor_min := (argsGet args "valor_min").bind pf,
    valor_max := (argsGet args "valor_max").bind pf,
    data_abertura_min := argsGet args "data_abertura_min",
    data_abertura_max := argsGet args "data_abertura_max" }

/-- End-to-end query construction of the `search_licitacoes` route: free
text from the `q` parameter (default `""`) plus the assembled filters,
handed to `search_text` with the default fields. -/
def buildSearchQuery (pf : String → Option Int) (args : List (String × String)) : EsQuery :=
  search_text ((argsGet args "q").getD "") none (buildFilters pf args)

/-- The three candidate publication-date keys, in the spec's priority
order. -/
def pubDateCandidates : List String :=
  ["dataPublicacaoPncp", "dataPublicacao", "dataInclusao"]

/-- Spec-style reformulation of the publication-date policy as the code
actually behaves: the FIRST PRESENT candidate key wins, and its value is
then parsed (an unparseable string keeps `init`; a non-string raises).
Stated generically over the candidate list so that comparing it with the
literal `if/elif` chain `derivePubDate` is meaningful. -/
def specPubDateByPresence (parse : String → Option Nat) (d : RawRecord)
    (init : Option Nat) : Except PyErr (Option Nat) :=
  match pubDateCandidates.findSome? (fun k => rget d k) with
  | some v => applyDateField parse v init
  | none => .ok init

/-- The spec's envelope-normalization rule, stated as in §4.1/§9: an
ordered list of accepted top-level keys, the first present one wins, absence
of both yields zero records. -/
def specEnvelopeRecords (res : Response) : List RawRecord :=
  (([res.content, res.data].findSome? id).getD [])

/-- The orchestrator as claim C7 describes it: partial failures are
tolerated, but a fatal fetch failure is re-raised to the caller instead of
being swallowed.  Used only to exhibit the divergence from
`sync_licitacoes`. -/
def specOrchestratorRaises (parse : String → Option Nat) (esOk : Bool) (now : Nat)
    (fetch : Nat → Except Fatal Response) (w : World) : Except Fatal SyncResult :=
  let out := syncRun parse esOk now fetch w
  match out.fatal with
  | some e => .error e
  | none => .ok ⟨out.w, some now, out.count, out.trace⟩

/-- The total-page count captured from the first page's response
(`result.get('totalPaginas', 1)`). -/
def capturedTotal (fetchOk : Nat → Response) : Nat :=
  (fetchOk 1).totalPaginas.getD 1

/-- The loop's stopping condition at page `q`, given the captured total
`t`: the page has zero records, or the page number has reached `t`. -/
def stopB (fetchOk : Nat → Response) (t q : Nat) : Bool :=
  ((fetchOk q).data.getD []).isEmpty || decide (t ≤ q)

theorem stopB_exists (fetchOk : Nat → Response) (t p : Nat) :
    ∃ n, stopB fetchOk t (p + n) = true := by
  refine ⟨t - p, ?_⟩
  have h : t ≤ p + (t - p) := by omega
  simp [stopB, h]

/-- The first page at or after `p` where the stopping condition holds. -/
def stopFrom (fetchOk : Nat → Response) (t p : Nat) : Nat :=
  p + Nat.find (stopB_exists fetchOk t p)

/-- The page at which a fatal-error-free run stops: the first page at which
the stopping condition holds, for the total captured from page 1. -/
def stopPage (fetchOk : Nat → Response) : Nat :=
  stopFrom fetchOk (capturedTotal fetchOk) 1

/-- Concrete stand-in for `datetime.fromisoformat` used in closed witness
statements: parses exactly two fixed ISO strings. -/
def isoStub : String → Option Nat := fun s =>
  if s = "2024-05-06T07:08:09+00:00" then some 42
  else if s = "2024-01-02T03:04:05+00:00" then some 100
  else none

/-- Concrete stand-in for Python `float` parsing used in closed witness
statements. -/
def floatStub : String → Option Int := fun s =>
  if s = "1000" then some 1000 else none

/-- An empty world (fresh database and search index). -/
def w0 : World := ⟨[], []⟩

/-- A minimal raw record that reconciles successfully. -/
def demoRecord : RawRecord :=
  [("numeroControlePNCP", JVal.str "A1"), ("objeto", JVal.str "obra")]

/-- A raw record whose reconciliation fails: its `dataPublicacaoPncp` value
is a number, so the date normalization raises `AttributeError`. -/
def badDateRecord : RawRecord :=
  [("numeroControlePNCP", JVal.str "BAD"), ("dataPublicacaoPncp", JVal.num 7)]

/-- A fetch oracle whose every page fetch fails fatally (retries
exhausted). -/
def failFetch : Nat → Except Fatal Response := fun _ =>
  .error (.apiFailure .transport)

/-- A successful response exposing records only under `content`. -/
def contentOnlyResp : Response :=
  { content := some [demoRecord], totalPaginas := some 1 }

/-- The same records exposed under `data` instead. -/
def dataOnlyResp : Response :=
  { data := some [demoRecord], totalPaginas := some 1 }

/-- A record processed without error or a record skipped/failed leaving the
world unchanged and uncounted: this is what the per-record `except` (or the
missing-identifier `continue`) of the page loop produces. -/
def recordFailed (parse : String → Option Nat) (esOk : Bool) (now : Nat)
    (w : World) (d : RawRecord) : Prop :=
  processRecord parse esOk now w d = (w, false)

/-- A record whose highest-priority date key holds an unparseable string
while the second-priority key holds a parseable one. -/
def cexRecordParseable : RawRecord :=
  [("dataPublicacaoPncp", JVal.str "garbage"),
   ("dataPublicacao", JVal.str "2024-05-06T07:08:09Z")]

/-- A record whose highest-priority date key holds a number (a shape the
`except (ValueError, TypeError)` clause does not protect against). -/
def numDateRecord : RawRecord := [("dataPublicacaoPncp", JVal.num 7)]

/-- Batch records for the partial-failure scenario. -/
def rec1 : RawRecord := [("numeroControlePNCP", JVal.str "R1")]

def rec2 : RawRecord := [("numeroControlePNCP", JVal.str "R2")]

def rec4 : RawRecord := [("numeroControlePNCP", JVal.str "R4")]

def rec5 : RawRecord := [("numeroControlePNCP", JVal.str "R5")]

/-- Five records of which the third fails reconciliation. -/
def batch5 : List RawRecord := [rec1, rec2, badDateRecord, rec4, rec5]

/-- A concrete stored entity used in closed witness statements. -/
def egEntity : Licitacao :=
  { id := 1, id_externo := "A1", fonte := "PNCP", sequencial := JVal.null,
    ano := JVal.null, objeto := JVal.str "obra", descricao := JVal.str "",
    valor_estimado := JVal.null, modalidade := JVal.str "Pregão",
    situacao := JVal.null, data_publicacao := none, data_abertura := none,
    orgao_nome := JVal.null, orgao_id := JVal.null, municipio := JVal.null,
    uf := JVal.null, dados_completos := [], data_criacao := 0,
    data_atualizacao := 0, indexado := false, data_indexacao := none }

/-- A transport oracle whose every attempt fails. -/
def failAttempts : Nat → Except ReqErr Response := fun _ => .error .transport

/-- The request of the search-composition example: free text plus a region
and a lower value bound. -/
def exampleArgs : List (String × String) :=
  [("q", "computer"), ("uf", "SP"), ("valor_min", "1000")]

/-- A first-page response with records but no reported page total. -/
def dataNoTotalResp : Response := { data := some [demoRecord] }

/-- The checkpoint field of a run outcome is decided solely by whether a
fatal error escaped the page loop. -/
theorem sync_cp_eq (parse : String → Option Nat) (esOk : Bool) (now : Nat)
    (fetch : Nat → Except Fatal Response) (w : World) (cp : Option Nat) :
    (sync_licitacoes parse esOk now fetch w cp).cp =
      (match (syncRun parse esOk now fetch w).fatal with
       | some _ => cp
       | none => some now) := by
  unfold sync_licitacoes
  cases h : (syncRun parse esOk now fetch w).fatal <;> simp [h]

/-- The returned count of a run outcome, by the same case split. -/
theorem sync_count_eq (parse : String → Option Nat) (esOk : Bool) (now : Nat)
    (fetch : Nat → Except Fatal Response) (w : World) (cp : Option Nat) :
    (sync_licitacoes parse esOk now fetch w cp).count =
      (match (syncRun parse esOk now fetch w).fatal with
       | some _ => 0
       | none => (syncRun parse esOk now fetch w).count) := by
  unfold sync_licitacoes
  cases h : (syncRun parse esOk now fetch w).fatal <;> simp [h]

/-- C1 (confirmed): the sync checkpoint is written exactly once per run and
only after the run's final page was processed successfully.  If a page
fetch raised a fatal error (retry exhaustion), the checkpoint is left
exactly as it was — so the next run's default window start,
`computeDataInicial`, is still computed from the previous checkpoint or
from the thirty-day default; if the loop finished without a fatal error,
the checkpoint is overwritten with the current time. -/
theorem checkpoint_only_on_success (parse : String → Option Nat) (esOk : Bool)
    (now : Nat) (fetch : Nat → Except Fatal Response) (w : World) (cp : Option Nat) :
    ((syncRun parse esOk now fetch w).fatal.isSome = true →
      (sync_licitacoes parse esOk now fetch w cp).cp = cp ∧
      computeDataInicial (sync_licitacoes parse esOk now fetch w cp).cp now =
        computeDataInicial cp now) ∧
    ((syncRun parse esOk now fetch w).fatal = none →
      (sync_licitacoes parse esOk now fetch w cp).cp = some now) := by
  have hcp := sync_cp_eq parse esOk now fetch w cp
  cases h : (syncRun parse esOk now fetch w).fatal with
  | some e => rw [h] at hcp; exact ⟨fun _ => ⟨hcp, by rw [hcp]⟩, fun hn => by simp [h] at hn⟩
  | none => rw [h] at hcp; exact ⟨fun hs => by simp [h] at hs, fun _ => hcp⟩

/-- Closed witness for C1: a run whose first page fetch fails fatally
leaves the checkpoint at its previous value. -/
theorem checkpoint_only_on_success_witness :
    (syncRun isoStub true 7 failFetch w0).fatal.isSome = true ∧
    (sync_licitacoes isoStub true 7 failFetch w0 (some 3)).cp = some 3 :=
  ⟨rfl, ((checkpoint_only_on_success isoStub true 7 failFetch w0 (some 3)).1 rfl).1⟩

/-- C7 (amended): the orchestrator never raises at all.  Partial failures
are excluded from the returned count, and a fatal fetch failure — instead
of propagating — makes the run return a count of zero (with the checkpoint
unwritten); otherwise the run returns the accumulated success count. -/
theorem orchestrator_never_raises (parse : String → Option Nat) (esOk : Bool)
    (now : Nat) (fetch : Nat → Except Fatal Response) (w : World) (cp : Option Nat) :
    ((syncRun parse esOk now fetch w).fatal.isSome = true →
      (sync_licitacoes parse esOk now fetch w cp).count = 0) ∧
    ((syncRun parse esOk now fetch w).fatal = none →
      (sync_licitacoes parse esOk now fetch w cp).count =
        (syncRun parse esOk now fetch w).count) := by
  have hc := sync_count_eq parse esOk now fetch w cp
  cases h : (syncRun parse esOk now fetch w).fatal with
  | some e => rw [h] at hc; exact ⟨fun _ => hc, fun hn => by simp [h] at hn⟩
  | none => rw [h] at hc; exact ⟨fun hs => by simp [h] at hs, fun _ => hc⟩

/-- Closed witness for C7's amended statement. -/
theorem orchestrator_never_raises_witness :
    (syncRun isoStub true 7 failFetch w0).fatal.isSome = true ∧
    (sync_licitacoes isoStub true 7 failFetch w0 (some 3)).count = 0 :=
  ⟨rfl, (orchestrator_never_raises isoStub true 7 failFetch w0 (some 3)).1 rfl⟩

/-- Counterexample to C7 as stated: on a run whose page-1 fetch fails
fatally, the claim's orchestrator (`specOrchestratorRaises`) re-raises the
fetch error, but `sync_licitacoes` catches it and returns a normal result
with count `0` and the checkpoint untouched. -/
theorem orchestrator_raises_cex :
    specOrchestratorRaises isoStub true 7 failFetch w0 =
      .error (.apiFailure .transport) ∧
    sync_licitacoes isoStub true 7 failFetch w0 (some 3) = ⟨w0, some 3, 0, [1]⟩ :=
  ⟨rfl, rfl⟩

/-- C3 (amended): the publication-date candidates are tried by key
PRESENCE in the fixed priority order `dataPublicacaoPncp`,
`dataPublicacao`, `dataInclusao`: the first present key wins outright, and
later candidates are never consulted — the literal `if/elif` chain of the
create and update paths coincides with the generic first-present-candidate
rule.  (Within the chosen field, an unparseable string keeps the initial
value — `none` on create, the stored value on update — and a non-string
value raises an `AttributeError` that the per-record handler catches.) -/
theorem pubdate_presence_priority (parse : String → Option Nat) (d : RawRecord)
    (init : Option Nat) :
    derivePubDate parse d init = specPubDateByPresence parse d init := by
  unfold derivePubDate specPubDateByPresence pubDateCandidates
  cases h1 : rget d "dataPublicacaoPncp" <;>
    cases h2 : rget d "dataPublicacao" <;>
    cases h3 : rget d "dataInclusao" <;>
    simp [List.findSome?, h1, h2, h3]

/-- Counterexample to C3 as stated: with the highest-priority key present
but unparseable and the second key parseable (to timestamp 42), the
normalized date is `none` rather than the first PARSEABLE value; and with a
numeric date value, date handling raises instead of never raising. -/
theorem pubdate_parseable_cex :
    isoStub (replaceZ "2024-05-06T07:08:09Z") = some 42 ∧
    derivePubDate isoStub cexRecordParseable none = .ok none ∧
    derivePubDate isoStub cexRecordParseable none ≠ .ok (some 42) ∧
    derivePubDate isoStub numDateRecord none = .error .attributeError := by
  refine ⟨rfl, rfl, ?_, rfl⟩
  intro h
  rw [show derivePubDate isoStub cexRecordParseable none = Except.ok none from rfl] at h
  exact Option.noConfusion (Except.ok.inj h)

/-- C5 (amended): `PNCPClient.fetch_licitacoes` takes the records of a
successful response from the first present of the envelope keys `content`
and `data`, in that order, and yields zero records when neither is present
— exactly the spec's ordered-candidate normalization rule. -/
theorem envelope_first_present (res : Response) :
    fetch_licitacoes (Except.ok res) = specEnvelopeRecords res := by
  unfold fetch_licitacoes specEnvelopeRecords
  cases h1 : res.content <;> cases h2 : res.data <;> simp [List.findSome?, h1, h2]

/-- Counterexample to C5 as stated: the page loop of `sync_licitacoes`
reads only the `data` key, so a successful response carrying its (non-empty,
processable) records under `content` alone yields a run count of zero,
although the envelope rule — and `fetch_licitacoes` — would surface those
records; the same records under `data` yield a count of one. -/
theorem sync_reads_only_data_cex :
    fetch_licitacoes (Except.ok contentOnlyResp) = [demoRecord] ∧
    (sync_licitacoes isoStub true 7 (fun _ => .ok contentOnlyResp) w0 none).count = 0 ∧
    (sync_licitacoes isoStub true 7 (fun _ => .ok dataOnlyResp) w0 none).count = 1 :=
  ⟨rfl, rfl, rfl⟩

/-- An index-with-id upsert makes the document retrievable under its key. -/
theorem esGet_upsert (es : Es) (k : Nat) (doc : IndexDoc) :
    esGet (esUpsert es k doc) k = some doc := by
  induction es with
  | nil => simp [esUpsert, esGet]
  | cons kv rest ih =>
    by_cases h : kv.1 == k
    · simp [esUpsert, esGet, h]
    · simp only [esUpsert, h]
      simpa [esGet, List.find?, h] using ih

/-- C8 (confirmed): indexing is best-effort and decoupled from
reconciliation.  On a successful upsert, `_index_licitacao` sets
`indexado = true` and `data_indexacao = now` and persists the change, and
the document is stored in the index under the entity's primary key; on
failure the entity and the index are both left unchanged.  The function is
total (no exception reaches the reconciliation caller), and it preserves
the invariant that `indexado = true` implies `data_indexacao` is set. -/
theorem indexer_best_effort (esOk : Bool) (now : Nat) (e : Licitacao) (es : Es) :
    (esOk = true →
      (indexLicitacao esOk now e es).1.indexado = true ∧
      (indexLicitacao esOk now e es).1.data_indexacao = some now ∧
      esGet (indexLicitacao esOk now e es).2 e.id = some (toDict e)) ∧
    (esOk = false → indexLicitacao esOk now e es = (e, es)) ∧
    ((e.indexado = true → e.data_indexacao.isSome = true) →
      ((indexLicitacao esOk now e es).1.indexado = true →
        (indexLicitacao esOk now e es).1.data_indexacao.isSome = true)) := by
  cases esOk with
  | true =>
    refine ⟨fun _ => ⟨rfl, rfl, ?_⟩, ⟨fun h => Bool.noConfusion h, fun _ _ => rfl⟩⟩
    simpa [indexLicitacao, index_document] using esGet_upsert es e.id (toDict e)
  | false =>
    exact ⟨fun h => Bool.noConfusion h, ⟨fun _ => rfl, fun hinv => hinv⟩⟩

/-- Closed witness for C8: success sets the status fields and stores the
document; failure is the identity. -/
theorem indexer_best_effort_witness :
    ((indexLicitacao true 9 egEntity []).1.indexado = true ∧
     (indexLicitacao true 9 egEntity []).1.data_indexacao = some 9 ∧
     esGet (indexLicitacao true 9 egEntity []).2 egEntity.id = some (toDict egEntity)) ∧
    indexLicitacao false 9 egEntity [] = (egEntity, []) :=
  ⟨(indexer_best_effort true 9 egEntity []).1 rfl,
   (indexer_best_effort false 9 egEntity []).2.1 rfl⟩

/-- The retry loop of `_make_request` when every remaining attempt fails:
it raises the fatal error built from the last attempt's failure, after
sleeping `retry_delay * 2 ^ attempt` between consecutive attempts. -/
theorem makeRequestGo_all_fail (maxRetries retryDelay : Nat)
    (attempts : Nat → Except ReqErr Response) :
    ∀ k a, a + k + 1 = maxRetries →
      (∀ i, a ≤ i → i < maxRetries → ∃ e, attempts i = .error e) →
      ∃ e, attempts (maxRetries - 1) = .error e ∧
        makeRequestGo maxRetries retryDelay attempts a =
          ⟨.error (.apiFailure e),
           (List.range' a k).map (fun i => retryDelay * 2 ^ i)⟩ := by
  intro k
  induction k with
  | zero =>
    intro a ha hf
    obtain ⟨e, he⟩ := hf a (le_refl a) (by omega)
    refine ⟨e, by rw [show maxRetries - 1 = a by omega]; exact he, ?_⟩
    unfold makeRequestGo
    have h1 : a < maxRetries := by omega
    have h2 : ¬ a < maxRetries - 1 := by omega
    simp [h1, h2, he, List.range']
  | succ k ih =>
    intro a ha hf
    obtain ⟨e0, he0⟩ := hf a (le_refl a) (by omega)
    obtain ⟨e, he, hrec⟩ := ih (a + 1) (by omega) (fun i hi1 hi2 => hf i (by omega) hi2)
    refine ⟨e, he, ?_⟩
    unfold makeRequestGo
    have h1 : a < maxRetries := by omega
    have h2 : a < maxRetries - 1 := by omega
    simp [h1, h2, he0, hrec, List.range']

/-- C4 (confirmed): when every one of the `max_retries` attempts fails with
a transport or non-2xx error, `_make_request` sleeps the exponential
backoff delays `retry_delay * 2 ^ attempt` between consecutive attempts
and then raises a fatal error carrying the last failure — the call's
result is the raised error, never a silent empty/`None` result. -/
theorem retry_backoff_and_raise (maxRetries retryDelay : Nat)
    (attempts : Nat → Except ReqErr Response) (hpos : 1 ≤ maxRetries)
    (hfail : ∀ i, i < maxRetries → ∃ e, attempts i = .error e) :
    ∃ e, attempts (maxRetries - 1) = .error e ∧
      (make_request maxRetries retryDelay attempts).result =
        .error (.apiFailure e) ∧
      (make_request maxRetries retryDelay attempts).sleeps =
        (List.range (maxRetries - 1)).map (fun i => retryDelay * 2 ^ i) := by
  obtain ⟨e, he, heq⟩ := makeRequestGo_all_fail maxRetries retryDelay attempts
    (maxRetries - 1) 0 (by omega) (fun i _ h2 => hfail i h2)
  refine ⟨e, he, ?_, ?_⟩
  · rw [make_request, heq]
  · rw [make_request, heq, List.range_eq_range']

/-- Closed witness for C4: three attempts, base delay 2; the call raises
and the backoff sleeps are 2 then 4 seconds. -/
theorem retry_backoff_and_raise_witness :
    (make_request 3 2 failAttempts).result = .error (.apiFailure .transport) ∧
    (make_request 3 2 failAttempts).sleeps = [2, 4] := by
  obtain ⟨e, he, hres, hsl⟩ :=
    retry_backoff_and_raise 3 2 failAttempts (by omega) (fun i _ => ⟨.transport, rfl⟩)
  have hE : ReqErr.transport = e := by
    have h := he
    simp only [failAttempts, Except.error.injEq] at h
    exact h
  rw [← hE] at hres
  exact ⟨hres, hsl.trans (by rfl)⟩

/-- A failed or skipped record is a no-op step of the page fold. -/
theorem processStep_failed (parse : String → Option Nat) (esOk : Bool) (now : Nat)
    (st : World × Nat) (r : RawRecord)
    (hfail : recordFailed parse esOk now st.1 r) :
    processStep parse esOk now st r = st := by
  unfold processStep
  unfold recordFailed at hfail
  rw [hfail]
  simp

/-- C6 (confirmed): record failures are isolated.  If, at the point it is
reached, a record fails reconciliation (storage/normalization error, or a
missing identifier) — leaving the world unchanged and the record uncounted
— then the whole page fold behaves exactly as if that record were absent:
the remaining records are still processed and the accumulated count
reflects only the records that reconciled without error. -/
theorem record_failure_isolated (parse : String → Option Nat) (esOk : Bool)
    (now : Nat) (w : World) (xs : List RawRecord) (r : RawRecord)
    (ys : List RawRecord)
    (hfail : recordFailed parse esOk now (processRecords parse esOk now w xs).1 r) :
    processRecords parse esOk now w (xs ++ r :: ys) =
      processRecords parse esOk now w (xs ++ ys) := by
  unfold processRecords at hfail ⊢
  rw [List.foldl_append, List.foldl_append, List.foldl_cons,
      processStep_failed parse esOk now _ r hfail]

/-- Closed witness for C6: a batch of five records whose third fails
(numeric date value) yields the same outcome as the four-record batch — a
count of 4 and four stored entities, with the run not aborted. -/
theorem record_failure_isolated_witness :
    recordFailed isoStub true 7 (processRecords isoStub true 7 w0 [rec1, rec2]).1
      badDateRecord ∧
    processRecords isoStub true 7 w0 batch5 =
      processRecords isoStub true 7 w0 [rec1, rec2, rec4, rec5] ∧
    (processRecords isoStub true 7 w0 batch5).2 = 4 ∧
    (processRecords isoStub true 7 w0 batch5).1.db.length = 4 := by
  refine ⟨rfl, ?_, rfl, rfl⟩
  exact record_failure_isolated isoStub true 7 w0 [rec1, rec2] badDateRecord
    [rec4, rec5] rfl

/-- The built query's `must` branch always carries exactly the conjunctive
fuzzy multi-match over the weighted fields. -/
theorem search_text_must (text : String) (fields : Option (List String))
    (f : FiltersDict) :
    (search_text text fields f).query.must =
      [Clause.multiMatch text (fields.getD defaultSearchFields) "and" "AUTO"] := by
  unfold search_text
  by_cases h : filtersNonempty f = true
  · by_cases h2 : (filterClauses f).isEmpty <;> simp [h, h2]
  · simp [h]

/-- Membership in one `if key in filters: append(...)` block. -/
theorem mem_optClause {α : Type} (o : Option α) (g : α → Clause) (c : Clause) :
    c ∈ optClause o g ↔ ∃ x, o = some x ∧ c = g x := by
  cases o <;> simp [optClause]

/-- An untruthy filters dict produces no filter clauses. -/
theorem filterClauses_eq_nil (f : FiltersDict) (h : filtersNonempty f = false) :
    filterClauses f = [] := by
  cases hm : f.modalidade <;> cases hu : f.uf <;> cases hv1 : f.valor_min <;>
    cases hv2 : f.valor_max <;> cases hd1 : f.data_abertura_min <;>
    cases hd2 : f.data_abertura_max <;>
    simp_all [filtersNonempty, filterClauses, optClause]

/-- Membership in the built query's filter clause set is membership in the
accumulated clause list, across all the attach/skip branches of
`search_text`. -/
theorem mem_search_filter (text : String) (f : FiltersDict) (c : Clause) :
    (c ∈ (search_text text none f).query.filter.getD []) ↔ c ∈ filterClauses f := by
  unfold search_text
  by_cases h : filtersNonempty f = true
  · by_cases h2 : (filterClauses f).isEmpty
    · simp [h, h2, List.isEmpty_iff.mp h2]
    · simp [h, h2]
  · have h0 : filtersNonempty f = false := by
      cases hb : filtersNonempty f
      · rfl
      · exact absurd hb h
    simp [h, filterClauses_eq_nil f h0]

/-- C9 (confirmed): the built search request always AND-combines the
conjunctive fuzzy free-text multi-match (in the bool query's `must`) with
the structured filter clause set (in its `filter` — bool-query semantics
conjoin the two), and a clause belongs to that filter set exactly when its
query parameter was supplied — with, for the two value bounds, the
supplied string additionally parsing as a number.  Category (modalidade)
and region (uf) are exact-match terms; the value and opening-date bounds
are one-sided ranges. -/
theorem search_filter_composition (pf : String → Option Int)
    (args : List (String × String)) (c : Clause) :
    (buildSearchQuery pf args).query.must =
      [Clause.multiMatch ((argsGet args "q").getD "") defaultSearchFields "and" "AUTO"] ∧
    ((c ∈ (buildSearchQuery pf args).query.filter.getD []) ↔
      ((∃ m, argsGet args "modalidade" = some m ∧
          c = Clause.term "modalidade.keyword" (JVal.str m)) ∨
       (∃ u, argsGet args "uf" = some u ∧ c = Clause.term "uf" (JVal.str u)) ∨
       (∃ s v, argsGet args "valor_min" = some s ∧ pf s = some v ∧
          c = Clause.rangeGte "valor_estimado" (JVal.num v)) ∨
       (∃ s v, argsGet args "valor_max" = some s ∧ pf s = some v ∧
          c = Clause.rangeLte "valor_estimado" (JVal.num v)) ∨
       (∃ s, argsGet args "data_abertura_min" = some s ∧
          c = Clause.rangeGte "data_abertura" (JVal.str s)) ∨
       (∃ s, argsGet args "data_abertura_max" = some s ∧
          c = Clause.rangeLte "data_abertura" (JVal.str s)))) := by
  constructor
  · exact search_text_must ((argsGet args "q").getD "") none (buildFilters pf args)
  · show (c ∈ (search_text ((argsGet args "q").getD "") none
        (buildFilters pf args)).query.filter.getD []) ↔ _
    rw [mem_search_filter]
    simp only [filterClauses, List.mem_append, mem_optClause, buildFilters,
      Option.bind_eq_some]
    constructor
    · rintro (((((⟨m, hm, hc⟩ | ⟨u, hu, hc⟩) | ⟨v, ⟨s, hs, hv⟩, hc⟩) |
        ⟨v, ⟨s, hs, hv⟩, hc⟩) | ⟨s, hs, hc⟩) | ⟨s, hs, hc⟩)
      · exact Or.inl ⟨m, hm, hc⟩
      · exact Or.inr (Or.inl ⟨u, hu, hc⟩)
      · exact Or.inr (Or.inr (Or.inl ⟨s, v, hs, hv, hc⟩))
      · exact Or.inr (Or.inr (Or.inr (Or.inl ⟨s, v, hs, hv, hc⟩)))
      · exact Or.inr (Or.inr (Or.inr (Or.inr (Or.inl ⟨s, hs, hc⟩))))
      · exact Or.inr (Or.inr (Or.inr (Or.inr (Or.inr ⟨s, hs, hc⟩))))
    · rintro (⟨m, hm, hc⟩ | ⟨u, hu, hc⟩ | ⟨s, v, hs, hv, hc⟩ |
        ⟨s, v, hs, hv, hc⟩ | ⟨s, hs, hc⟩ | ⟨s, hs, hc⟩)
      · exact Or.inl (Or.inl (Or.inl (Or.inl (Or.inl ⟨m, hm, hc⟩))))
      · exact Or.inl (Or.inl (Or.inl (Or.inl (Or.inr ⟨u, hu, hc⟩))))
      · exact Or.inl (Or.inl (Or.inl (Or.inr ⟨v, ⟨s, hs, hv⟩, hc⟩)))
      · exact Or.inl (Or.inl (Or.inr ⟨v, ⟨s, hs, hv⟩, hc⟩))
      · exact Or.inl (Or.inr ⟨s, hs, hc⟩)
      · exact Or.inr ⟨s, hs, hc⟩

/-- Closed witness for C9: the claim's example — region `SP`, lower value
bound `1000`, free text `computer` — produces exactly the region term and
the value range, ANDed with the text match. -/
theorem search_filter_composition_witness :
    Clause.term "uf" (JVal.str "SP") ∈
      (buildSearchQuery floatStub exampleArgs).query.filter.getD [] ∧
    Clause.rangeGte "valor_estimado" (JVal.num 1000) ∈
      (buildSearchQuery floatStub exampleArgs).query.filter.getD [] ∧
    (buildSearchQuery floatStub exampleArgs).query.filter =
      some [Clause.term "uf" (JVal.str "SP"),
            Clause.rangeGte "valor_estimado" (JVal.num 1000)] ∧
    (buildSearchQuery floatStub exampleArgs).query.must =
      [Clause.multiMatch "computer" defaultSearchFields "and" "AUTO"] :=
  ⟨(search_filter_composition floatStub exampleArgs _).2.mpr
      (Or.inr (Or.inl ⟨"SP", rfl, rfl⟩)),
   (search_filter_composition floatStub exampleArgs _).2.mpr
      (Or.inr (Or.inr (Or.inl ⟨"1000", 1000, rfl, rfl, rfl⟩))),
   rfl, rfl⟩

/-- The stop page is at or after the page it is computed from. -/
theorem stopFrom_ge (fetchOk : Nat → Response) (t p : Nat) :
    p ≤ stopFrom fetchOk t p :=
  Nat.le_add_right p _

/-- A page satisfying the stopping condition is its own stop page. -/
theorem stopFrom_self (fetchOk : Nat → Response) (t p : Nat)
    (h : stopB fetchOk t p = true) : stopFrom fetchOk t p = p := by
  unfold stopFrom
  have h0 : Nat.find (stopB_exists fetchOk t p) = 0 := by
    rw [Nat.find_eq_zero]
    simpa using h
  rw [h0]
  omega

/-- A page not satisfying the stopping condition defers to the next page's
stop page. -/
theorem stopFrom_succ (fetchOk : Nat → Response) (t p : Nat)
    (h : stopB fetchOk t p = false) :
    stopFrom fetchOk t p = stopFrom fetchOk t (p + 1) := by
  unfold stopFrom
  have key : Nat.find (stopB_exists fetchOk t p) =
      Nat.find (stopB_exists fetchOk t (p + 1)) + 1 := by
    rw [Nat.find_eq_iff]
    constructor
    · have hs := Nat.find_spec (stopB_exists fetchOk t (p + 1))
      have harith : p + (Nat.find (stopB_exists fetchOk t (p + 1)) + 1) =
          p + 1 + Nat.find (stopB_exists fetchOk t (p + 1)) := by omega
      rw [harith]
      exact hs
    · intro m hm
      cases m with
      | zero => simp [h]
      | succ k =>
        have hk : k < Nat.find (stopB_exists fetchOk t (p + 1)) := by omega
        have hmin := Nat.find_min (stopB_exists fetchOk t (p + 1)) hk
        intro hc
        apply hmin
        have harith : p + 1 + k = p + (k + 1) := by omega
        rw [harith]
        exact hc
  rw [key]
  omega

/-- Trace characterization of the page loop on a fatal-error-free source:
starting at page `p` with captured total `t`, the loop fetches exactly the
pages `p, p+1, ..., stopFrom t p` and no fatal error escapes. -/
theorem syncLoopFrom_ok_trace (parse : String → Option Nat) (esOk : Bool)
    (now : Nat) (fetchOk : Nat → Response) (t : Nat) :
    ∀ fuel p w c tr, t + 1 - p ≤ fuel →
      (syncLoopFrom parse esOk now (fun q => Except.ok (fetchOk q)) t p w c tr).trace =
        tr ++ List.range' p (stopFrom fetchOk t p + 1 - p) ∧
      (syncLoopFrom parse esOk now (fun q => Except.ok (fetchOk q)) t p w c tr).fatal =
        none := by
  intro fuel
  induction fuel with
  | zero =>
    intro p w c tr hle
    have hstop : stopB fetchOk t p = true := by
      have : t ≤ p := by omega
      simp [stopB, this]
    rw [stopFrom_self fetchOk t p hstop]
    have hrange : p + 1 - p = 1 := by omega
    rw [syncLoopFrom, hrange]
    by_cases hE : ((fetchOk p).data.getD []).isEmpty
    · simp [hE, List.range'_succ]
    · have hlt : ¬ p < t := by omega
      simp [hE, hlt, List.range'_succ]
  | succ n ih =>
    intro p w c tr hle
    rw [syncLoopFrom]
    by_cases hE : ((fetchOk p).data.getD []).isEmpty
    · have hstop : stopB fetchOk t p = true := by simp [stopB, hE]
      rw [stopFrom_self fetchOk t p hstop]
      have hrange : p + 1 - p = 1 := by omega
      rw [hrange]
      simp [hE, List.range'_succ]
    · by_cases hlt : p < t
      · have hstop : stopB fetchOk t p = false := by
          have : ¬ t ≤ p := by omega
          simp [stopB, hE, this]
        have hrec := ih (p + 1) (processRecords parse esOk now w
            ((fetchOk p).data.getD [])).1
          (c + (processRecords parse esOk now w ((fetchOk p).data.getD [])).2)
          (tr ++ [p]) (by omega)
        rw [stopFrom_succ fetchOk t p hstop]
        have hge : p + 1 ≤ stopFrom fetchOk t (p + 1) := stopFrom_ge fetchOk t (p + 1)
        have hsplit : stopFrom fetchOk t (p + 1) + 1 - p =
            (stopFrom fetchOk t (p + 1) + 1 - (p + 1)) + 1 := by omega
        rw [hsplit]
        simp only [hE, hlt, dif_pos, if_neg, Bool.not_eq_true]
        constructor
        · rw [hrec.1, List.range'_succ]
          simp
        · exact hrec.2
      · have hstop : stopB fetchOk t p = true := by
          have : t ≤ p := by omega
          simp [stopB, this]
        rw [stopFrom_self fetchOk t p hstop]
        have hrange : p + 1 - p = 1 := by omega
        rw [hrange]
        simp [hE, hlt, List.range'_succ]

/-- On a fatal-error-free source, the first loop iteration of `syncRun` is
exactly the captured-total loop started at page 1. -/
theorem syncRun_eq_loop (parse : String → Option Nat) (esOk : Bool) (now : Nat)
    (fetchOk : Nat → Response) (w : World) :
    syncRun parse esOk now (fun q => Except.ok (fetchOk q)) w =
      syncLoopFrom parse esOk now (fun q => Except.ok (fetchOk q))
        (capturedTotal fetchOk) 1 w 0 [] := by
  rw [syncLoopFrom]
  unfold syncRun capturedTotal
  by_cases hE : ((fetchOk 1).data.getD []).isEmpty
  · simp [hE]
  · by_cases hlt : 1 < (fetchOk 1).totalPaginas.getD 1
    · simp [hE, hlt]
    · simp [hE, hlt]

/-- On a fatal-error-free source, the whole run fetches exactly pages
`1, ..., stopPage` and no fatal error escapes. -/
theorem syncRun_ok_trace (parse : String → Option Nat) (esOk : Bool) (now : Nat)
    (fetchOk : Nat → Response) (w : World) :
    (syncRun parse esOk now (fun q => Except.ok (fetchOk q)) w).trace =
      List.range' 1 (stopPage fetchOk) ∧
    (syncRun parse esOk now (fun q => Except.ok (fetchOk q)) w).fatal = none := by
  rw [syncRun_eq_loop]
  have h := syncLoopFrom_ok_trace parse esOk now fetchOk (capturedTotal fetchOk)
    (capturedTotal fetchOk + 1) 1 w 0 [] (by omega)
  refine ⟨h.1.trans ?_, h.2⟩
  have h2 : stopFrom fetchOk (capturedTotal fetchOk) 1 + 1 - 1 = stopPage fetchOk := by
    unfold stopPage
    omega
  rw [h2]
  simp

/-- C2 (confirmed): on a run whose page fetches all succeed, the page loop
starts at page 1, fixes the total-page count captured from the first
page's response, and fetches exactly the pages `1, ..., stopPage` — where
`stopPage` is the FIRST page at which the page's record list is empty or
the page number has reached the captured total, whichever comes first.  In
particular page `stopPage + 1` (e.g. page 4 under `totalPaginas = 3` with
non-empty pages) is never fetched, and an empty page stops the loop there
regardless of the reported total. -/
theorem pagination_termination (parse : String → Option Nat) (esOk : Bool)
    (now : Nat) (fetchOk : Nat → Response) (w : World) (cp : Option Nat) :
    (sync_licitacoes parse esOk now (fun q => Except.ok (fetchOk q)) w cp).trace =
      List.range' 1 (stopPage fetchOk) := by
  have h := syncRun_ok_trace parse esOk now fetchOk w
  unfold sync_licitacoes
  simp [h.2]
  exact h.1

/-- C10 (confirmed): when the first page's response has records but no
`totalPaginas` key, the captured total defaults to 1, so the run processes
page 1 and stops — page 2 is never fetched and the returned count is the
first page's success count. -/
theorem single_page_default (parse : String → Option Nat) (esOk : Bool)
    (now : Nat) (fetchOk : Nat → Response) (w : World) (cp : Option Nat)
    (h1 : (fetchOk 1).totalPaginas = none)
    (h2 : ((fetchOk 1).data.getD []).isEmpty = false) :
    (sync_licitacoes parse esOk now (fun q => Except.ok (fetchOk q)) w cp).trace = [1] ∧
    (sync_licitacoes parse esOk now (fun q => Except.ok (fetchOk q)) w cp).count =
      (processRecords parse esOk now w ((fetchOk 1).data.getD [])).2 := by
  have hrun : syncRun parse esOk now (fun q => Except.ok (fetchOk q)) w =
      ⟨(processRecords parse esOk now w ((fetchOk 1).data.getD [])).1,
       (processRecords parse esOk now w ((fetchOk 1).data.getD [])).2, [1], none⟩ := by
    unfold syncRun
    simp [h1, h2]
  unfold sync_licitacoes
  rw [hrun]
  exact ⟨rfl, rfl⟩

/-- Closed witness for C10: a one-record response without a reported page
total stops the run after page 1 with a count of one. -/
theorem single_page_default_witness :
    dataNoTotalResp.totalPaginas = none ∧
    (dataNoTotalResp.data.getD []).isEmpty = false ∧
    (sync_licitacoes isoStub true 7 (fun _ => Except.ok dataNoTotalResp) w0 none).trace = [1] ∧
    (sync_licitacoes isoStub true 7 (fun _ => Except.ok dataNoTotalResp) w0 none).count = 1 := by
  refine ⟨rfl, rfl, ?_, rfl⟩
  exact (single_page_default isoStub true 7 (fun _ => dataNoTotalResp) w0 none rfl rfl).1
